import Mathlib

/-!
Shallow embedding of the breate backend (FastAPI + SQLAlchemy) routers and
models, restricted to the parts the verified claims are about: the project
lifecycle state machine (`breate_backend/routers/projects.py`), project
discovery (`breate_backend/routers/discover.py`), profile updates
(`breate_backend/routers/profile.py`), the collab-circle ledger
(`breate_backend/routers/collabcircle.py`) and the entity model (`models.py`).

Python strings are embedded as Lean `String`; Python `None` / nullable columns
as `Option`; datetimes as `Nat` timestamps; the database session as an explicit
record of entity lists, with `db.commit()` reflected by returning the updated
record.  A FastAPI handler that can `raise HTTPException` becomes a function
into `Except HTTPException`.
-/

namespace Breate

/-- Embeds `fastapi.HTTPException`: an HTTP status code plus a detail string. -/
structure HTTPException where
  status_code : Nat
  detail : String
deriving DecidableEq, Repr

/-- Modelled from the spec: the enum `models.ProjectStatus` is referenced
throughout the routers (`models.ProjectStatus.__members__`,
`models.ProjectStatus.open`, `project.status.value`) but its declaration is
missing from `models.py` under `src/`.  The spec fixes its members as
`open`, `in_progress`, `completed`; member names and values coincide. -/
inductive ProjectStatus where
  | open_
  | in_progress
  | completed
deriving DecidableEq, Repr

/-- The `.value` of a status member (Python `project.status.value`). -/
def ProjectStatus.value : ProjectStatus → String
  | .open_ => "open"
  | .in_progress => "in_progress"
  | .completed => "completed"

/-- The keys of `models.ProjectStatus.__members__`. -/
def ProjectStatus.memberNames : List String :=
  ["open", "in_progress", "completed"]

/-- Member lookup by name, embedding Python `models.ProjectStatus[name]`;
`none` corresponds to a `KeyError`. -/
def ProjectStatus.ofName (s : String) : Option ProjectStatus :=
  if s = "open" then some .open_
  else if s = "in_progress" then some .in_progress
  else if s = "completed" then some .completed
  else none

/-- Embeds Python `s.split(sep)` for a one-character separator `sep`:
character-level splitting; in particular `"".split(",") = [""]`. -/
def pySplit (sep : Char) (s : String) : List String :=
  (s.data.splitOn sep).map List.asString

/-- Embeds Python `sep.join(parts)` for a one-character separator `sep`. -/
def pyJoin (sep : Char) (parts : List String) : String :=
  List.asString (List.intercalate [sep] (parts.map String.data))

/-- Python truthiness of an optional string: `None` and `""` are falsy. -/
def pyTruthyStr : Option String → Bool
  | some s => !s.isEmpty
  | none => false

/-- Embeds the `models.User` ORM entity (`models.py`). -/
structure User where
  id : Nat
  email : String
  password : String
  username : Option String := none
  full_name : Option String := none
  bio : Option String := none
  preferred_themes : Option String := none
  portfolio_links : Option String := none
  next_build : Option String := none
  affiliations : Option String := none
  archetype_id : Option Nat := none
  tier_id : Option Nat := none
deriving DecidableEq, Repr

/-- Embeds the `models.Project` ORM entity (`models.py`).  The `status` and
`completed_at` columns are used by the routers but absent from `models.py`
under `src/`; they are modelled from the spec (status enum with default
`open`, optional completion timestamp). -/
structure Project where
  id : Nat
  title : String
  objective : String
  project_type : String
  needed_archetypes : String
  open_roles : Option String := none
  timeline : Option String := none
  region : Option String := none
  coalition_tags : Option String := none
  created_at : Nat
  poster_id : Option Nat := none
  status : ProjectStatus := .open_
  completed_at : Option Nat := none
deriving DecidableEq, Repr

/-- Embeds the `models.ProjectParticipant` ORM entity (`models.py`). -/
structure ProjectParticipant where
  id : Nat
  project_id : Nat
  user_id : Nat
  status : String := "pending"
  joined_at : Nat
deriving DecidableEq, Repr

/-- Embeds the `models.CollabLink` ORM entity (`models.py`).  The username
columns are stored exactly as assigned by the router (the ORM attribute is
the caller's possibly-absent username), and the confirmation flags are the
`Integer` columns `user_a_confirmed` / `user_b_confirmed`. -/
structure CollabLink where
  id : Nat
  user_a_username : Option String
  user_b_username : Option String
  project_name : Option String := none
  status : String := "pending"
  user_a_confirmed : Nat := 0
  user_b_confirmed : Nat := 0
  verified_at : Option Nat := none
  created_at : Nat
deriving DecidableEq, Repr

/-- The database session state: one list per table touched by the claims. -/
structure DB where
  users : List User
  projects : List Project
  participants : List ProjectParticipant
  collab_links : List CollabLink
deriving DecidableEq, Repr

/-- Replaces the first element satisfying `hit` (the row returned by
`query(...).first()`, mutated in place and committed). -/
def updateFirstBy (hit : α → Bool) (f : α → α) : List α → List α
  | [] => []
  | x :: xs => if hit x then f x :: xs else x :: updateFirstBy hit f xs

/-- The database state after running a handler: on success the returned
state, on a raised `HTTPException` the original state (the handler raises
before any mutation is committed). -/
def dbAfter (db : DB) : Except HTTPException (DB × β) → DB
  | .ok (db', _) => db'
  | .error _ => db

/-- Embeds `VALID_STATUS_FLOW` (`routers/projects.py`), as `dict.get`:
the single legal next status, if any. -/
def VALID_STATUS_FLOW (current : String) : Option String :=
  if current = "open" then some "in_progress"
  else if current = "in_progress" then some "completed"
  else none

/-- Embeds `validate_status_transition` (`routers/projects.py`).  In Python
`new != allowed_next` compares a `str` to an `Optional[str]`, hence is
`some new ≠ VALID_STATUS_FLOW current` here. -/
def validate_status_transition (current new : String) : Except HTTPException Unit :=
  if current = "completed" then
    .error ⟨400, "Completed projects cannot be updated"⟩
  else if some new ≠ VALID_STATUS_FLOW current then
    .error ⟨400, "Invalid status transition: " ++ current ++ " → " ++ new⟩
  else
    .ok ()

/-- Embeds the `ProjectCreate` request schema (`routers/projects.py`). -/
structure ProjectCreate where
  title : String
  objective : String
  project_type : String
  needed_archetypes : List String
  open_roles : Option String := none
  timeline : Option String := none
  region : Option String := none
  coalition_tags : List String := []
deriving DecidableEq, Repr

/-- Embeds the `ProjectResponse` response schema (`routers/projects.py`). -/
structure ProjectResponse where
  id : Nat
  title : String
  objective : String
  project_type : String
  needed_archetypes : List String
  open_roles : Option String
  timeline : Option String
  region : Option String
  coalition_tags : List String
  poster_id : Option Nat
  status : String
  created_at : Nat
deriving DecidableEq, Repr

/-- The `ProjectResponse(...)` construction repeated verbatim in every
handler of `routers/projects.py`: tag fields are split back into lists
(`p.needed_archetypes.split(",")`, and for coalition tags
`p.coalition_tags.split(",") if p.coalition_tags else []`). -/
def projectToResponse (p : Project) : ProjectResponse where
  id := p.id
  title := p.title
  objective := p.objective
  project_type := p.project_type
  needed_archetypes := pySplit ',' p.needed_archetypes
  open_roles := p.open_roles
  timeline := p.timeline
  region := p.region
  coalition_tags :=
    if pyTruthyStr p.coalition_tags then pySplit ',' (p.coalition_tags.getD "") else []
  poster_id := p.poster_id
  status := p.status.value
  created_at := p.created_at

/-- Rows of the query ordered by `created_at` descending. -/
def orderByCreatedDesc (projects : List Project) : List Project :=
  projects.mergeSort (fun a b => decide (b.created_at ≤ a.created_at))

/-- Embeds `get_projects` (`GET /projects/`, `routers/projects.py`): every
project, no filter, ordered by creation time descending. -/
def get_projects (projects : List Project) : List ProjectResponse :=
  (orderByCreatedDesc projects).map projectToResponse

/-- Embeds `create_project` (`POST /projects/`, `routers/projects.py`).
`new_id` is the primary key the database assigns, `now` the row's
`created_at` server default.  The status column initializes to `open`
(modelled from the spec; the column is absent from `models.py` under
`src/`). -/
def create_project (db : DB) (project : ProjectCreate) (current_user : User)
    (new_id now : Nat) : DB × ProjectResponse :=
  let new_project : Project :=
    { id := new_id
      title := project.title
      objective := project.objective
      project_type := project.project_type
      needed_archetypes := pyJoin ',' project.needed_archetypes
      open_roles := project.open_roles
      timeline := project.timeline
      region := project.region
      coalition_tags := some (pyJoin ',' project.coalition_tags)
      created_at := now
      poster_id := some current_user.id
      status := .open_
      completed_at := none }
  ({ db with projects := db.projects ++ [new_project] }, projectToResponse new_project)

/-- Embeds `get_project` (`GET /projects/{id}`, `routers/projects.py`). -/
def get_project (projects : List Project) (project_id : Nat) :
    Except HTTPException ProjectResponse :=
  match projects.find? (fun p => p.id == project_id) with
  | none => .error ⟨404, "Project not found"⟩
  | some project => .ok (projectToResponse project)

/-- Embeds `update_project_status` (`PATCH /projects/{id}/status`,
`routers/projects.py`): 404 if absent, 403 if the caller is not the poster,
400 if the payload names no enum member, then the transition is validated;
on success the status is stored and reaching `completed` stamps
`completed_at := now` (`datetime.utcnow()`). -/
def update_project_status (db : DB) (project_id : Nat) (payload_status : String)
    (current_user : User) (now : Nat) : Except HTTPException (DB × ProjectResponse) :=
  match db.projects.find? (fun p => p.id == project_id) with
  | none => .error ⟨404, "Project not found"⟩
  | some project =>
    if project.poster_id ≠ some current_user.id then
      .error ⟨403, "You are not allowed to update this project"⟩
    else if payload_status ∉ ProjectStatus.memberNames then
      .error ⟨400, "Invalid project status"⟩
    else
      match validate_status_transition project.status.value payload_status with
      | .error e => .error e
      | .ok _ =>
        match ProjectStatus.ofName payload_status with
        | none => .error ⟨500, "KeyError"⟩
        | some st =>
          let updated : Project :=
            { project with
              status := st
              completed_at :=
                if payload_status = "completed" then some now else project.completed_at }
          let projects' := updateFirstBy (fun p => p.id == project_id) (fun _ => updated) db.projects
          .ok ({ db with projects := projects' }, projectToResponse updated)

/-- Embeds `delete_project` (`DELETE /projects/{id}`, `routers/projects.py`):
404 if absent, 403 if the caller is not the poster, 400 unless the status is
`open`; on success the row is deleted and the `cascade="all, delete-orphan"`
relationship (`models.py`, `Project.participants`) destroys the project's
participant rows. -/
def delete_project (db : DB) (project_id : Nat) (current_user : User) :
    Except HTTPException (DB × String) :=
  match db.projects.find? (fun p => p.id == project_id) with
  | none => .error ⟨404, "Project not found"⟩
  | some project =>
    if project.poster_id ≠ some current_user.id then
      .error ⟨403, "You are not allowed to delete this project"⟩
    else if project.status ≠ ProjectStatus.open_ then
      .error ⟨400, "Only open projects can be deleted"⟩
    else
      .ok ({ db with
             projects := db.projects.filter (fun p => !(p.id == project_id))
             participants := db.participants.filter (fun pp => !(pp.project_id == project_id)) },
           "Project deleted successfully")

/-- Case-insensitive substring match, embedding a SQL `ILIKE` comparison
with pattern `%needle%` (an empty needle matches everything). -/
def ilikeContains (hay needle : String) : Bool :=
  decide (needle.toLower.data <:+: hay.toLower.data)

/-- `ILIKE` on a nullable column: SQL `NULL ILIKE p` is not true, so the row
is filtered out. -/
def ilikeOpt (hay : Option String) (needle : String) : Bool :=
  match hay with
  | some h => ilikeContains h needle
  | none => false

/-- Embeds a row of the `discover_projects` response
(`routers/discover.py`). -/
structure DiscoverEntry where
  id : Nat
  title : String
  objective : String
  project_type : String
  needed_archetypes : List String
  region : Option String
  coalition_tags : List String
  status : String
  created_at : Nat
  poster_id : Option Nat
deriving DecidableEq, Repr

/-- The dict built for each project in `discover_projects`. -/
def projectToDiscoverEntry (p : Project) : DiscoverEntry where
  id := p.id
  title := p.title
  objective := p.objective
  project_type := p.project_type
  needed_archetypes := pySplit ',' p.needed_archetypes
  region := p.region
  coalition_tags :=
    if pyTruthyStr p.coalition_tags then pySplit ',' (p.coalition_tags.getD "") else []
  status := p.status.value
  created_at := p.created_at
  poster_id := p.poster_id

/-- Embeds `discover_projects` (`GET /discover/projects`,
`routers/discover.py`): the fixed filter `status == ProjectStatus.open` is
applied first, then the optional `region`, `archetype` and `coalition`
`ILIKE` filters (each skipped when its query parameter is falsy), ordered by
creation time descending. -/
def discover_projects (projects : List Project)
    (archetype region coalition : Option String) : List DiscoverEntry :=
  let q0 := projects.filter (fun p => decide (p.status = ProjectStatus.open_))
  let q1 := if pyTruthyStr region then
      q0.filter (fun p => ilikeOpt p.region (region.getD "")) else q0
  let q2 := if pyTruthyStr archetype then
      q1.filter (fun p => ilikeContains p.needed_archetypes (archetype.getD "")) else q1
  let q3 := if pyTruthyStr coalition then
      q2.filter (fun p => ilikeOpt p.coalition_tags (coalition.getD "")) else q2
  (orderByCreatedDesc q3).map projectToDiscoverEntry

/-- Embeds the `CollabCreate` request schema (`routers/collabcircle.py`). -/
structure CollabCreate where
  collaborator_username : String
  project_name : Option String := none
deriving DecidableEq, Repr

/-- The duplicate filter of `create_collaboration`: a link between the two
usernames in either `(user_a, user_b)` order. -/
def collabPairHit (callerName targetName : Option String) (l : CollabLink) : Bool :=
  decide ((l.user_a_username = callerName ∧ l.user_b_username = targetName) ∨
          (l.user_a_username = targetName ∧ l.user_b_username = callerName))

/-- Embeds `create_collaboration` (`POST /collabcircle/`,
`routers/collabcircle.py`): 404 if no user carries the target username, 400
if the target is the caller, 400 `Collaboration already exists` if a link
already exists in either order; otherwise the new link is inserted with the
caller as side A (`user_a_confirmed=1`), the target as side B
(`user_b_confirmed=0`) and status `pending`. -/
def create_collaboration (db : DB) (payload : CollabCreate) (current_user : User)
    (new_id now : Nat) : Except HTTPException (DB × CollabLink) :=
  match db.users.find? (fun u => u.username == some payload.collaborator_username) with
  | none => .error ⟨404, "User not found"⟩
  | some collaborator =>
    if collaborator.username = current_user.username then
      .error ⟨400, "Cannot collaborate with yourself"⟩
    else
      match db.collab_links.find? (collabPairHit current_user.username collaborator.username) with
      | some _ => .error ⟨400, "Collaboration already exists"⟩
      | none =>
        let collab : CollabLink :=
          { id := new_id
            user_a_username := current_user.username
            user_b_username := collaborator.username
            project_name := payload.project_name
            status := "pending"
            user_a_confirmed := 1
            user_b_confirmed := 0
            verified_at := none
            created_at := now }
        .ok ({ db with collab_links := db.collab_links ++ [collab] }, collab)

/-- The loop of `update_profile` over `allowed_fields`
(`routers/profile.py`): each allow-listed key present in the request body is
written through `setattr`; every other key of the body is ignored.  The body
is an association list from field name to the (possibly null) value. -/
def applyProfileFields (u : User) (data : List (String × Option String)) : User :=
  { u with
    full_name := (data.lookup "full_name").getD u.full_name
    bio := (data.lookup "bio").getD u.bio
    preferred_themes := (data.lookup "preferred_themes").getD u.preferred_themes
    portfolio_links := (data.lookup "portfolio_links").getD u.portfolio_links
    next_build := (data.lookup "next_build").getD u.next_build
    affiliations := (data.lookup "affiliations").getD u.affiliations }

/-- Embeds `update_profile` (`PUT /profile/{username}`,
`routers/profile.py`): 403 unless the caller's username equals the path
username, 404 if the caller's row is gone, otherwise the allow-listed fields
are applied and committed. -/
def update_profile (db : DB) (username : String) (data : List (String × Option String))
    (current_user : User) : Except HTTPException (DB × String) :=
  if current_user.username ≠ some username then
    .error ⟨403, "You are not allowed to edit this profile"⟩
  else
    match db.users.find? (fun u => u.id == current_user.id) with
    | none => .error ⟨404, "User not found"⟩
    | some user =>
      .ok ({ db with
             users := updateFirstBy (fun u => u.id == current_user.id)
               (fun _ => applyProfileFields user data) db.users },
           "Profile updated successfully")

/-! Claim statements (spec predicates) and concrete fixtures. -/

/-- The two transitions the spec allows:
`open → in_progress` and `in_progress → completed`. -/
def goodTransition (st : ProjectStatus) (new : String) : Prop :=
  (st = .open_ ∧ new = "in_progress") ∨ (st = .in_progress ∧ new = "completed")

instance (st : ProjectStatus) (new : String) : Decidable (goodTransition st new) := by
  unfold goodTransition; infer_instance

/-- Conclusion of claim C1 for a project `p` found under id `pid` and owned
by `u`: a status update succeeds exactly on the two legal transitions, a
transition out of `completed` fails with `Completed projects cannot be
updated`, every other rejected transition names the attempted and current
states, and any rejection leaves the database unchanged. -/
def statusTransitionClaim (db : DB) (pid : Nat) (new : String) (u : User)
    (now : Nat) (p : Project) : Prop :=
  ((∃ r, update_project_status db pid new u now = .ok r) ↔ goodTransition p.status new) ∧
  (p.status = .completed → new ∈ ProjectStatus.memberNames →
    update_project_status db pid new u now =
      .error ⟨400, "Completed projects cannot be updated"⟩) ∧
  (p.status ≠ .completed → new ∈ ProjectStatus.memberNames → ¬ goodTransition p.status new →
    update_project_status db pid new u now =
      .error ⟨400, "Invalid status transition: " ++ p.status.value ++ " → " ++ new⟩) ∧
  (∀ e, update_project_status db pid new u now = .error e →
    dbAfter db (update_project_status db pid new u now) = db)

/-- Conclusion of claim C5 for a project `p` found under id `pid`: the
ownership guard fires first (regardless of the payload), the enum-membership
guard second, and only then is the transition validated, any transition
error being returned as is. -/
def statusGuardOrderClaim (db : DB) (pid : Nat) (new : String) (u : User)
    (now : Nat) (p : Project) : Prop :=
  (p.poster_id ≠ some u.id →
    update_project_status db pid new u now =
      .error ⟨403, "You are not allowed to update this project"⟩) ∧
  (p.poster_id = some u.id → new ∉ ProjectStatus.memberNames →
    update_project_status db pid new u now = .error ⟨400, "Invalid project status"⟩) ∧
  (p.poster_id = some u.id → new ∈ ProjectStatus.memberNames →
    ∀ e, validate_status_transition p.status.value new = .error e →
      update_project_status db pid new u now = .error e)

/-- Conclusion of claim C6 for a project `p` found under id `pid`: a
successful status update rewrites exactly that project, changing only its
`status` (to the requested one) and — for the transition into `completed` —
its `completed_at`; every other field and every other table is untouched. -/
def statusUpdateFrameClaim (db : DB) (pid : Nat) (new : String) (u : User)
    (now : Nat) (p : Project) : Prop :=
  ∀ db' resp, update_project_status db pid new u now = .ok (db', resp) →
    db'.users = db.users ∧ db'.participants = db.participants ∧
    db'.collab_links = db.collab_links ∧
    ∃ p', db'.projects = updateFirstBy (fun q => q.id == pid) (fun _ => p') db.projects ∧
      p'.id = p.id ∧ p'.title = p.title ∧ p'.objective = p.objective ∧
      p'.project_type = p.project_type ∧ p'.needed_archetypes = p.needed_archetypes ∧
      p'.open_roles = p.open_roles ∧ p'.timeline = p.timeline ∧ p'.region = p.region ∧
      p'.coalition_tags = p.coalition_tags ∧ p'.created_at = p.created_at ∧
      p'.poster_id = p.poster_id ∧ p'.status.value = new ∧
      p'.completed_at = (if new = "completed" then some now else p.completed_at)

/-- Conclusion of claim C3 for a project `p` found under id `pid`: deletion
is owner-only, succeeds exactly when the status is `open`, cascades to the
project's participant rows, and a rejection leaves the database unchanged. -/
def deleteProjectClaim (db : DB) (pid : Nat) (u : User) (p : Project) : Prop :=
  (p.poster_id ≠ some u.id →
    delete_project db pid u = .error ⟨403, "You are not allowed to delete this project"⟩) ∧
  (p.poster_id = some u.id → p.status ≠ .open_ →
    delete_project db pid u = .error ⟨400, "Only open projects can be deleted"⟩) ∧
  ((∃ r, delete_project db pid u = .ok r) ↔ (p.poster_id = some u.id ∧ p.status = .open_)) ∧
  (∀ db' m, delete_project db pid u = .ok (db', m) →
    db'.users = db.users ∧ db'.collab_links = db.collab_links ∧
    db'.projects = db.projects.filter (fun q => !(q.id == pid)) ∧
    db'.participants = db.participants.filter (fun pp => !(pp.project_id == pid))) ∧
  (∀ e, delete_project db pid u = .error e → dbAfter db (delete_project db pid u) = db)

/-- Two collab links record the same unordered pair of usernames. -/
def samePair (l₁ l₂ : CollabLink) : Prop :=
  (l₁.user_a_username = l₂.user_a_username ∧ l₁.user_b_username = l₂.user_b_username) ∨
  (l₁.user_a_username = l₂.user_b_username ∧ l₁.user_b_username = l₂.user_a_username)

/-- At most one collab link per unordered username pair. -/
def pairUnique (links : List CollabLink) : Prop :=
  links.Pairwise (fun l₁ l₂ => ¬ samePair l₁ l₂)

/-- Conclusion of claim C4: with the target user `t` found and distinct from
the caller, an existing link for the pair (in either order) makes creation
fail with `Collaboration already exists` and leaves the database unchanged;
and a successful creation preserves uniqueness of unordered pairs. -/
def collabUniqueClaim (db : DB) (payload : CollabCreate) (u t : User)
    (new_id now : Nat) : Prop :=
  (db.users.find? (fun v => v.username == some payload.collaborator_username) = some t →
    t.username ≠ u.username →
    (∃ ex ∈ db.collab_links, collabPairHit u.username t.username ex) →
    create_collaboration db payload u new_id now =
      .error ⟨400, "Collaboration already exists"⟩ ∧
    dbAfter db (create_collaboration db payload u new_id now) = db) ∧
  (pairUnique db.collab_links →
    ∀ db' l, create_collaboration db payload u new_id now = .ok (db', l) →
      pairUnique db'.collab_links)

/-- Conclusion of claim C7: an unknown target username yields `NotFound`,
the caller naming itself yields `InvalidArgument`, and otherwise — with no
existing link for the pair — the new link carries the caller as side A
(confirmed), the target as side B (unconfirmed) and status `pending`. -/
def collabCreateClaim (db : DB) (payload : CollabCreate) (u : User)
    (new_id now : Nat) : Prop :=
  (db.users.find? (fun v => v.username == some payload.collaborator_username) = none →
    create_collaboration db payload u new_id now = .error ⟨404, "User not found"⟩) ∧
  (∀ t, db.users.find? (fun v => v.username == some payload.collaborator_username) = some t →
    t.username = u.username →
    create_collaboration db payload u new_id now =
      .error ⟨400, "Cannot collaborate with yourself"⟩) ∧
  (∀ t, db.users.find? (fun v => v.username == some payload.collaborator_username) = some t →
    t.username ≠ u.username →
    db.collab_links.find? (collabPairHit u.username t.username) = none →
    create_collaboration db payload u new_id now =
      .ok ({ db with collab_links := db.collab_links ++
               [⟨new_id, u.username, t.username, payload.project_name, "pending", 1, 0, none, now⟩] },
           ⟨new_id, u.username, t.username, payload.project_name, "pending", 1, 0, none, now⟩))

/-! Concrete fixtures used by witnesses and counterexamples. -/

/-- A user fixture. -/
def alice : User :=
  { id := 1, email := "alice@example.com", password := "pw", username := some "alice" }

/-- A second user fixture. -/
def bob : User :=
  { id := 2, email := "bob@example.com", password := "pw", username := some "bob" }

/-- An `open` project owned by `alice`. -/
def projOpen : Project :=
  { id := 1, title := "Mural", objective := "paint", project_type := "art",
    needed_archetypes := "Creator,Innovator", created_at := 10,
    poster_id := some 1, status := .open_ }

/-- An `in_progress` project owned by `alice`. -/
def projInProgress : Project :=
  { id := 2, title := "Zine", objective := "print", project_type := "media",
    needed_archetypes := "Creator", created_at := 20,
    poster_id := some 1, status := .in_progress }

/-- A `completed` project owned by `alice`. -/
def projCompleted : Project :=
  { id := 3, title := "Fest", objective := "run", project_type := "event",
    needed_archetypes := "Connector", created_at := 30,
    poster_id := some 1, status := .completed, completed_at := some 40 }

/-- A participant row attached to `projOpen`. -/
def participantOfOpen : ProjectParticipant :=
  { id := 1, project_id := 1, user_id := 2, joined_at := 15 }

/-- A collab link between `alice` (side A) and `bob` (side B). -/
def linkAliceBob : CollabLink :=
  { id := 1, user_a_username := some "alice", user_b_username := some "bob",
    user_a_confirmed := 1, created_at := 5 }

/-- Database fixture with all three project statuses and a participant. -/
def dbProjects : DB :=
  { users := [alice, bob], projects := [projOpen, projInProgress, projCompleted],
    participants := [participantOfOpen], collab_links := [] }

/-- Database fixture with one existing collaboration link. -/
def dbCollab : DB :=
  { users := [alice, bob], projects := [], participants := [],
    collab_links := [linkAliceBob] }

/-- Database fixture with no collaboration links. -/
def dbNoCollab : DB :=
  { users := [alice, bob], projects := [], participants := [], collab_links := [] }

/-- Empty database fixture. -/
def dbEmpty : DB :=
  { users := [alice], projects := [], participants := [], collab_links := [] }

/-- Creation payload with the spec scenario's tag list. -/
def payloadCI : ProjectCreate :=
  { title := "Mural", objective := "paint", project_type := "art",
    needed_archetypes := ["Creator", "Innovator"] }

/-- Creation payload with an empty needed-archetype list. -/
def payloadNoTags : ProjectCreate :=
  { title := "Blank", objective := "none", project_type := "misc",
    needed_archetypes := [] }

/-! Theorems. -/

/-- C8: for every profile-update request where the caller's username differs
from the target username, the request fails with `Forbidden` (403) and no
field of any user is mutated (the database is unchanged). -/
theorem C8_profile_update_forbidden (db : DB) (username : String)
    (data : List (String × Option String)) (u : User)
    (h : u.username ≠ some username) :
    update_profile db username data u =
      .error ⟨403, "You are not allowed to edit this profile"⟩ ∧
    dbAfter db (update_profile db username data u) = db := by
  refine ⟨?_, ?_⟩ <;> simp [update_profile, h, dbAfter]

/-- Witness for C8 at a concrete input: `alice` tries to edit `bob`. -/
theorem C8_profile_update_forbidden_witness :
    update_profile dbEmpty "bob" [("bio", some "x")] alice =
      .error ⟨403, "You are not allowed to edit this profile"⟩ ∧
    dbAfter dbEmpty (update_profile dbEmpty "bob" [("bio", some "x")] alice) = dbEmpty :=
  C8_profile_update_forbidden dbEmpty "bob" [("bio", some "x")] alice (by decide)

/-- C3 (amended): for a project found under `pid`, deletion by its owner
succeeds iff the status is `open`; a non-owner gets 403, a non-open project
gets 400 `Only open projects can be deleted` (the code capitalizes the
message), a success removes the project and its participant rows, and a
rejection leaves the database unchanged. -/
theorem C3_delete_open_only (db : DB) (pid : Nat) (u : User) (p : Project)
    (hfind : db.projects.find? (fun q => q.id == pid) = some p) :
    deleteProjectClaim db pid u p := by
  unfold deleteProjectClaim
  by_cases hown : p.poster_id = some u.id
  · by_cases hst : p.status = ProjectStatus.open_
    · refine ⟨fun hc => absurd hown hc, fun _ hc => absurd hst hc, ?_, ?_, ?_⟩
      · simp [delete_project, hfind, hown, hst]
      · intro db' m hok
        simp [delete_project, hfind, hown, hst] at hok
        simp [← hok.1]
      · intro e he
        simp [delete_project, hfind, hown, hst] at he
    · refine ⟨fun hc => absurd hown hc, fun _ _ => ?_, ?_, ?_, ?_⟩
      · simp [delete_project, hfind, hown, hst]
      · simp [delete_project, hfind, hown, hst]
      · intro db' m hok
        simp [delete_project, hfind, hown, hst] at hok
      · intro e he
        simp [delete_project, hfind, hown, hst, dbAfter]
  · refine ⟨fun _ => ?_, fun hc => absurd hc hown, ?_, ?_, ?_⟩
    · simp [delete_project, hfind, hown]
    · simp [delete_project, hfind, hown]
    · intro db' m hok
      simp [delete_project, hfind, hown] at hok
    · intro e he
      simp [delete_project, hfind, hown, dbAfter]

/-- Witness for C3 at a concrete input: `projOpen` found under id 1. -/
theorem C3_delete_open_only_witness :
    deleteProjectClaim dbProjects 1 alice projOpen :=
  C3_delete_open_only dbProjects 1 alice projOpen (by decide)

/-- Counterexample to C3 as stated: deleting the `in_progress` project as
its owner is rejected, but with the detail `Only open projects can be
deleted`, not the claimed lowercase `only open projects can be deleted`. -/
theorem C3_delete_message_counterexample :
    delete_project dbProjects 2 alice =
      .error ⟨400, "Only open projects can be deleted"⟩ ∧
    "Only open projects can be deleted" ≠ "only open projects can be deleted" := by
  exact ⟨rfl, by decide⟩

/-- C1 (amended): for a project found under `pid` and owned by the caller,
a status update succeeds exactly on `open → in_progress` and
`in_progress → completed`; an enum-member transition out of `completed`
fails with `Completed projects cannot be updated` (the code capitalizes the
message); every other rejected enum-member transition fails naming the
attempted and current states; and every rejection leaves the database
unchanged. -/
theorem C1_status_transitions (db : DB) (pid : Nat) (new : String) (u : User)
    (now : Nat) (p : Project)
    (hfind : db.projects.find? (fun q => q.id == pid) = some p)
    (hown : p.poster_id = some u.id) :
    statusTransitionClaim db pid new u now p := by
  unfold statusTransitionClaim
  by_cases hmem : new ∈ ProjectStatus.memberNames
  · have hmem' : new = "open" ∨ new = "in_progress" ∨ new = "completed" := by
      simpa [ProjectStatus.memberNames] using hmem
    rcases hmem' with h | h | h <;> subst h <;> rcases hst : p.status <;>
      refine ⟨?_, ?_, ?_, fun e he => by rw [he]; rfl⟩ <;>
        simp [update_project_status, hfind, hown, validate_status_transition,
              VALID_STATUS_FLOW, ProjectStatus.value, ProjectStatus.ofName,
              ProjectStatus.memberNames, goodTransition, hst]
  · have hupd : update_project_status db pid new u now =
        .error ⟨400, "Invalid project status"⟩ := by
      simp [update_project_status, hfind, hown, hmem]
    refine ⟨?_, ?_, ?_, fun e he => by rw [he]; rfl⟩
    · rw [hupd]
      constructor
      · rintro ⟨r, hr⟩; simp at hr
      · intro hg
        exfalso
        rcases hg with ⟨_, hn⟩ | ⟨_, hn⟩ <;> subst hn <;>
          exact hmem (by simp [ProjectStatus.memberNames])
    · intro _ hmem'; exact absurd hmem' hmem
    · intro _ hmem' _; exact absurd hmem' hmem

/-- Witness for C1 at a concrete input: the owner moves the `open` project
to `in_progress`. -/
theorem C1_status_transitions_witness :
    statusTransitionClaim dbProjects 1 "in_progress" alice 99 projOpen :=
  C1_status_transitions dbProjects 1 "in_progress" alice 99 projOpen (by decide) (by decide)

/-- Counterexample to C1 as stated: the owner requesting `in_progress` on
the `completed` project is rejected, but with the detail `Completed projects
cannot be updated`, not the claimed lowercase `completed projects cannot be
updated`. -/
theorem C1_status_message_counterexample :
    update_project_status dbProjects 3 "in_progress" alice 99 =
      .error ⟨400, "Completed projects cannot be updated"⟩ ∧
    "Completed projects cannot be updated" ≠ "completed projects cannot be updated" :=
  ⟨rfl, by decide⟩

/-- C5: for a project found under `pid`, the guards of the status-update
handler apply in order: ownership first (403 regardless of the payload),
then enum membership (400 `Invalid project status`), and only then is the
transition validated, whose error is returned as raised. -/
theorem C5_status_guard_order (db : DB) (pid : Nat) (new : String) (u : User)
    (now : Nat) (p : Project)
    (hfind : db.projects.find? (fun q => q.id == pid) = some p) :
    statusGuardOrderClaim db pid new u now p := by
  unfold statusGuardOrderClaim
  refine ⟨?_, ?_, ?_⟩
  · intro hno
    simp [update_project_status, hfind, hno]
  · intro hown hmem
    simp [update_project_status, hfind, hown, hmem]
  · intro hown hmem e he
    simp [update_project_status, hfind, hown, hmem, he]

/-- Witness for C5 at a concrete input: `bob`, who is not the poster, sends
an unknown status string and still gets 403. -/
theorem C5_status_guard_order_witness :
    statusGuardOrderClaim dbProjects 1 "reopened" bob 99 projOpen :=
  C5_status_guard_order dbProjects 1 "reopened" bob 99 projOpen (by decide)

/-- C6: for a project found under `pid`, a successful status update rewrites
exactly that project, changing only `status` and — when the new status is
`completed` — stamping `completed_at := now`; every other field and table is
unchanged. -/
theorem C6_status_update_frame (db : DB) (pid : Nat) (new : String) (u : User)
    (now : Nat) (p : Project)
    (hfind : db.projects.find? (fun q => q.id == pid) = some p) :
    statusUpdateFrameClaim db pid new u now p := by
  unfold statusUpdateFrameClaim
  intro db' resp hok
  by_cases hown : p.poster_id = some u.id
  · by_cases hmem : new ∈ ProjectStatus.memberNames
    · have hmem' : new = "open" ∨ new = "in_progress" ∨ new = "completed" := by
        simpa [ProjectStatus.memberNames] using hmem
      rcases hmem' with h | h | h <;> subst h <;> rcases hst : p.status <;>
        simp [update_project_status, hfind, hown, validate_status_transition,
              VALID_STATUS_FLOW, ProjectStatus.value, ProjectStatus.ofName,
              ProjectStatus.memberNames, hst] at hok
      · obtain ⟨hdb, -⟩ := hok
        subst hdb
        exact ⟨rfl, rfl, rfl, _, rfl, rfl, rfl, rfl, rfl, rfl, rfl, rfl, rfl, rfl,
               rfl, hown.symm, rfl, (if_neg (by decide)).symm⟩
      · obtain ⟨hdb, -⟩ := hok
        subst hdb
        exact ⟨rfl, rfl, rfl, _, rfl, rfl, rfl, rfl, rfl, rfl, rfl, rfl, rfl, rfl,
               rfl, hown.symm, rfl, (if_pos rfl).symm⟩
    · simp [update_project_status, hfind, hown, hmem] at hok
  · simp [update_project_status, hfind, hown] at hok

/-- Witness for C6 at a concrete input: completing the `in_progress`
project as its owner. -/
theorem C6_status_update_frame_witness :
    statusUpdateFrameClaim dbProjects 2 "completed" alice 99 projInProgress :=
  C6_status_update_frame dbProjects 2 "completed" alice 99 projInProgress (by decide)

/-- C7: collaboration creation checks, in order: unknown target username →
404 `User not found`; target equals the caller → 400; otherwise, with no
link for the pair in either order, the link is created with the caller as
side A (`user_a_confirmed = 1`), the target as side B
(`user_b_confirmed = 0`) and status `pending`. -/
theorem C7_collab_create (db : DB) (payload : CollabCreate) (u : User)
    (new_id now : Nat) : collabCreateClaim db payload u new_id now := by
  unfold collabCreateClaim
  refine ⟨?_, ?_, ?_⟩
  · intro hnone
    simp [create_collaboration, hnone]
  · intro t hfind hself
    simp [create_collaboration, hfind, hself]
  · intro t hfind hne hdup
    simp [create_collaboration, hfind, hne, hdup]

/-- Witness for C7 at a concrete input: `alice` links to `bob` in a database
with no existing links. -/
theorem C7_collab_create_witness :
    create_collaboration dbNoCollab ⟨"bob", none⟩ alice 1 7 =
      .ok ({ dbNoCollab with
             collab_links := [⟨1, some "alice", some "bob", none, "pending", 1, 0, none, 7⟩] },
           ⟨1, some "alice", some "bob", none, "pending", 1, 0, none, 7⟩) :=
  (C7_collab_create dbNoCollab ⟨"bob", none⟩ alice 1 7).2.2 bob (by decide) (by decide) rfl

/-- C4 (amended): an attempted collaboration with an existing target user,
distinct from the caller, for a pair already linked in either order fails
with 400 `Collaboration already exists` (the code capitalizes the message)
and creates no link; and a successful creation preserves the at-most-one-
link-per-unordered-pair invariant. -/
theorem C4_collab_unique (db : DB) (payload : CollabCreate) (u t : User)
    (new_id now : Nat) : collabUniqueClaim db payload u t new_id now := by
  unfold collabUniqueClaim
  constructor
  · intro hfind hne hex
    have hdup : ∃ l, db.collab_links.find? (collabPairHit u.username t.username) = some l := by
      rw [← Option.isSome_iff_exists, List.find?_isSome]
      obtain ⟨ex, hmem, hhit⟩ := hex
      exact ⟨ex, hmem, hhit⟩
    obtain ⟨l, hl⟩ := hdup
    constructor
    · simp [create_collaboration, hfind, hne, hl]
    · simp [create_collaboration, hfind, hne, hl, dbAfter]
  · intro hpu db' l hok
    rcases hfind2 : db.users.find? (fun v => v.username == some payload.collaborator_username)
      with _ | t2
    · simp [create_collaboration, hfind2] at hok
    · by_cases hself : t2.username = u.username
      · simp [create_collaboration, hfind2, hself] at hok
      · rcases hdup : db.collab_links.find? (collabPairHit u.username t2.username) with _ | ex
        · simp [create_collaboration, hfind2, hself, hdup] at hok
          obtain ⟨hdb, -⟩ := hok
          subst hdb
          unfold pairUnique
          rw [List.pairwise_append]
          refine ⟨hpu, List.pairwise_singleton _ _, ?_⟩
          intro l1 h1 l2 h2 hsp
          simp only [List.mem_singleton] at h2
          subst h2
          have hnone := List.find?_eq_none.mp hdup l1 h1
          apply hnone
      -- `samePair l1 newLink` is exactly the duplicate filter on `l1`
          simp only [collabPairHit, decide_eq_true_eq]
          simpa [samePair] using hsp
        · simp [create_collaboration, hfind2, hself, hdup] at hok

/-- Witness for C4 at a concrete input: `bob` re-creates the existing
`alice`–`bob` link in the reversed order and is rejected, leaving the
database unchanged. -/
theorem C4_collab_unique_witness :
    create_collaboration dbCollab ⟨"alice", none⟩ bob 2 9 =
      .error ⟨400, "Collaboration already exists"⟩ ∧
    dbAfter dbCollab (create_collaboration dbCollab ⟨"alice", none⟩ bob 2 9) = dbCollab :=
  (C4_collab_unique dbCollab ⟨"alice", none⟩ bob alice 2 9).1 (by decide) (by decide)
    ⟨linkAliceBob, by decide, by decide⟩

/-- Counterexample to C4 as stated: the duplicate is rejected, but with the
detail `Collaboration already exists`, not the claimed lowercase
`collaboration already exists`. -/
theorem C4_collab_message_counterexample :
    create_collaboration dbCollab ⟨"alice", none⟩ bob 2 9 =
      .error ⟨400, "Collaboration already exists"⟩ ∧
    "Collaboration already exists" ≠ "collaboration already exists" :=
  ⟨rfl, by decide⟩

/-- Splitting after joining is the identity on nonempty lists of
separator-free strings. -/
theorem pySplit_pyJoin (sep : Char) (parts : List String) (hne : parts ≠ [])
    (hs : ∀ t ∈ parts, sep ∉ t.data) :
    pySplit sep (pyJoin sep parts) = parts := by
  unfold pySplit pyJoin
  have hdata : (List.asString (List.intercalate [sep] (parts.map String.data))).data =
      List.intercalate [sep] (parts.map String.data) := rfl
  rw [hdata, List.splitOn_intercalate]
  · rw [List.map_map]
    have hid : (List.asString ∘ String.data) = (id : String → String) := funext fun s => rfl
    rw [hid, List.map_id]
  · intro l hl
    obtain ⟨t, ht, rfl⟩ := List.mem_map.mp hl
    exact hs t ht
  · simpa using hne

/-- C2 (amended): a nonempty needed-archetype list in which no tag contains
a comma round-trips through create→read unchanged. -/
theorem C2_archetypes_round_trip (db : DB) (payload : ProjectCreate) (u : User)
    (new_id now : Nat)
    (hfresh : ∀ p ∈ db.projects, p.id ≠ new_id)
    (hne : payload.needed_archetypes ≠ [])
    (hnc : ∀ t ∈ payload.needed_archetypes, ',' ∉ t.data) :
    Except.map ProjectResponse.needed_archetypes
      (get_project (create_project db payload u new_id now).1.projects new_id) =
    .ok payload.needed_archetypes := by
  have h1 : db.projects.find? (fun p => p.id == new_id) = none := by
    rw [List.find?_eq_none]
    intro x hx
    simpa using hfresh x hx
  simp [create_project, get_project, List.find?_append, h1, projectToResponse,
        Except.map, pySplit_pyJoin ',' payload.needed_archetypes hne hnc]

/-- Witness for C2 at the spec scenario: tags `Creator`, `Innovator` come
back in order. -/
theorem C2_archetypes_round_trip_witness :
    Except.map ProjectResponse.needed_archetypes
      (get_project (create_project dbNoCollab payloadCI alice 1 0).1.projects 1) =
    .ok ["Creator", "Innovator"] :=
  C2_archetypes_round_trip dbNoCollab payloadCI alice 1 0 (by decide) (by decide) (by decide)

/-- Counterexample to C2 as stated: creating with the empty tag list (no
tag contains a comma) reads back as `[""]`, not `[]` — the stored text is
`""` and `"".split(",")` is `[""]`. -/
theorem C2_empty_list_counterexample :
    Except.map ProjectResponse.needed_archetypes
      (get_project (create_project dbNoCollab payloadNoTags alice 1 0).1.projects 1) =
    .ok [""] ∧ ([""] : List String) ≠ [] :=
  ⟨rfl, by decide⟩

/-- Membership in the reordered query result is membership in the query. -/
theorem mem_orderByCreatedDesc {p : Project} {l : List Project}
    (h : p ∈ orderByCreatedDesc l) : p ∈ l :=
  ((List.mergeSort_perm l _).mem_iff).mp h

/-- The reordered query result is sorted by `created_at` descending. -/
theorem pairwise_orderByCreatedDesc (l : List Project) :
    (orderByCreatedDesc l).Pairwise (fun a b => b.created_at ≤ a.created_at) := by
  have h := @List.sorted_mergeSort Project
    (fun a b => decide (b.created_at ≤ a.created_at))
    (by intro a b c hab hbc; simp only [decide_eq_true_eq] at *; omega)
    (by intro a b
        simp only [Bool.or_eq_true, decide_eq_true_eq]
        exact Nat.le_total b.created_at a.created_at) l
  exact h.imp (by simp only [decide_eq_true_eq]; exact fun h => h)

/-- Membership survives an optionally applied filter. -/
theorem mem_of_mem_iteFilter {p : Project} {l : List Project} {c : Bool}
    {f : Project → Bool} (h : p ∈ if c then l.filter f else l) : p ∈ l := by
  split at h
  · exact (List.mem_filter.mp h).1
  · exact h

/-- C9: every project-discovery result has status `open` — the fixed filter
is applied whatever the optional region, archetype and coalition filters —
and results are ordered by creation time descending. -/
theorem C9_discover_open_desc (projects : List Project)
    (archetype region coalition : Option String) :
    (∀ e ∈ discover_projects projects archetype region coalition, e.status = "open") ∧
    (discover_projects projects archetype region coalition).Pairwise
      (fun a b => b.created_at ≤ a.created_at) := by
  constructor
  · intro e he
    simp only [discover_projects, List.mem_map] at he
    obtain ⟨p, hp, rfl⟩ := he
    have hq := mem_orderByCreatedDesc hp
    have h0 : p ∈ projects.filter (fun q => decide (q.status = ProjectStatus.open_)) :=
      mem_of_mem_iteFilter (mem_of_mem_iteFilter (mem_of_mem_iteFilter hq))
    have hopen := (List.mem_filter.mp h0).2
    simp only [decide_eq_true_eq] at hopen
    simp [projectToDiscoverEntry, hopen, ProjectStatus.value]
  · simp only [discover_projects]
    rw [List.pairwise_map]
    exact pairwise_orderByCreatedDesc _

/-- Witness for C9 at a concrete input: with no optional filters, the open
project of a mixed database is returned and its status reads `open`. -/
theorem C9_discover_open_desc_witness :
    (projectToDiscoverEntry projOpen).status = "open" :=
  (C9_discover_open_desc [projCompleted, projOpen] none none none).1
    (projectToDiscoverEntry projOpen)
    (by simp [discover_projects, orderByCreatedDesc, projOpen, projCompleted,
              pyTruthyStr, List.mergeSort_singleton, ProjectStatus.value])

/-- C10: the public project list applies no status filter: it returns every
project (the result is a permutation of the whole table's responses, so
`in_progress` and `completed` projects are included), ordered by creation
time descending. -/
theorem C10_get_projects_unfiltered (projects : List Project) :
    (get_projects projects).Perm (projects.map projectToResponse) ∧
    (∀ p ∈ projects, projectToResponse p ∈ get_projects projects) ∧
    (get_projects projects).Pairwise (fun a b => b.created_at ≤ a.created_at) := by
  refine ⟨?_, ?_, ?_⟩
  · exact (List.mergeSort_perm projects _).map projectToResponse
  · intro p hp
    exact List.mem_map_of_mem projectToResponse
      (((List.mergeSort_perm projects _).mem_iff).mpr hp)
  · unfold get_projects
    rw [List.pairwise_map]
    exact pairwise_orderByCreatedDesc _

/-- Witness for C10 at a concrete input: a `completed` project appears in
the public list. -/
theorem C10_get_projects_unfiltered_witness :
    projectToResponse projCompleted ∈ get_projects [projOpen, projCompleted] :=
  (C10_get_projects_unfiltered [projOpen, projCompleted]).2.1 projCompleted (by decide)

end Breate
